import Mathlib

/-
Verification of the Sentry moderation backend (src/backend/app/main.py).

The Python handlers are shallowly embedded as pure Lean functions.  Remote
effects (the Gemini classifier call, image download/decoding, the Firestore
SDK) are represented by explicit outcome values: the handler's behaviour
depends on such a call only through its outcome, so each handler becomes a
function of its inputs and of the outcome of the remote call it performs.
The local (non-Firebase) storage branches are modelled directly; the
Firestore branches delegate to the external SDK and are outside the model.
-/

set_option maxRecDepth 100000

namespace Sentry

/-- JSON values, as produced by json.loads and returned by the endpoints.
Numbers are rationals (covers both the int and float literals used). -/
inductive Json where
  | null : Json
  | bool : Bool → Json
  | num : Rat → Json
  | str : String → Json
  | arr : List Json → Json
  | obj : List (String × Json) → Json

/-- Python truthiness of a JSON value (empty containers, empty strings,
zero and null are falsy). -/
def Json.truthy : Json → Bool
  | .null => false
  | .bool b => b
  | .num q => decide (q ≠ 0)
  | .str s => s ≠ ""
  | .arr xs => !xs.isEmpty
  | .obj fs => !fs.isEmpty

/-- Python isinstance(x, list). -/
def Json.isList : Json → Bool
  | .arr _ => true
  | _ => false

/-- len() of a JSON array (0 on non-arrays; only applied to arrays). -/
def Json.listLen : Json → Nat
  | .arr xs => xs.length
  | _ => 0

/-- Dictionary field access (dict.get(key) on a JSON object). -/
def Json.getField (j : Json) (key : String) : Option Json :=
  match j with
  | .obj fs => fs.lookup key
  | _ => none

/-- fastapi.HTTPException raised by the handlers for caller input errors. -/
structure HTTPException where
  status_code : Nat
  detail : String
deriving DecidableEq

/-- Builds a verdict dictionary with the field order used by every literal
verdict dict in main.py. -/
def mkVerdict (safe : Bool) (title reason what_to_do category : String)
    (confidence : Rat) : Json :=
  Json.obj [("safe", Json.bool safe), ("title", Json.str title),
    ("reason", Json.str reason), ("what_to_do", Json.str what_to_do),
    ("category", Json.str category), ("confidence", Json.num confidence)]

/-! ## analyze_content (POST /analyze-content, main.py lines 373-448) -/

/-- Outcome of the remote classifier call performed by analyze_content:
the handler's result depends on the call only through this value.
`ok parsed` means response.text was non-empty and json.loads of the
cleaned text succeeded with value `parsed`; `blockedOrEmpty` means the
response had no text; `jsonError` means json.loads raised
JSONDecodeError (re-raised past the inner handler and caught by the
outer except json.JSONDecodeError); `apiBlocked` means generate_content
raised an exception whose text mentions blocked/prohibited; `apiOther`
is any other exception from the call (re-raised, caught by the outer
generic handler). -/
inductive RemoteOutcome where
  | ok (parsed : Json)
  | blockedOrEmpty
  | jsonError
  | apiBlocked
  | apiOther

/-- Safe-default verdict returned when the AI response was blocked or
empty (main.py lines 405-412). -/
def contentFlaggedDefaultVerdict : Json :=
  mkVerdict false "Content Flagged"
    "This content couldn\x27t be properly analyzed, but our safety systems have flagged it as potentially inappropriate. It\x27s better to be cautious."
    "Consider skipping this content. If you believe this is a mistake, you can choose to view it anyway."
    "flagged_by_system" 80

/-- Verdict returned when the classifier API raised a blocked/prohibited
error (main.py lines 418-425). -/
def contentSystemBlockedVerdict : Json :=
  mkVerdict false "Content Flagged"
    "Our safety systems have identified this content as potentially harmful. The content appears to violate safety guidelines."
    "We recommend avoiding this content. If you still want to proceed, please do so with caution."
    "system_blocked" 95

/-- Verdict returned when the AI did not return valid JSON
(main.py lines 431-438). -/
def contentProcessingErrorVerdict : Json :=
  mkVerdict false "Analysis Error"
    "We couldn\x27t properly analyze this content, but we\x27ve flagged it as a precaution to keep you safe."
    "Consider skipping this content or proceeding with caution if you trust the source."
    "processing_error" 70

/-- Verdict returned on any other unexpected error
(main.py lines 441-448). -/
def contentErrorVerdict : Json :=
  mkVerdict false "Safety Check Error"
    "We encountered an issue while checking this content. To be safe, we\x27ve flagged it for your protection."
    "You can choose to proceed with caution or skip this content."
    "error" 60

/-- POST /analyze-content.  `content` is data.get("content"); a falsy
value is rejected with a 400.  On a successful parse the parsed JSON is
returned verbatim; each failure class maps to its fixed fallback
verdict (main.py lines 373-448). -/
def analyze_content (content : Json) (o : RemoteOutcome) :
    Except HTTPException Json :=
  if !content.truthy then
    .error ⟨400, "Content for analysis is required"⟩
  else
    match o with
    | .ok parsed => .ok parsed
    | .blockedOrEmpty => .ok contentFlaggedDefaultVerdict
    | .jsonError => .ok contentProcessingErrorVerdict
    | .apiBlocked => .ok contentSystemBlockedVerdict
    | .apiOther => .ok contentErrorVerdict

/-! ## analyze_batch (POST /analyze-batch, main.py lines 450-568) -/

/-- Outcome of the remote classifier call performed by analyze_batch.
`ok parsed` means response.text was non-empty and json.loads of the
cleaned text succeeded; `blockedOrEmpty` means the response had no
text; `jsonError` means json.loads raised JSONDecodeError (caught by
the dedicated except clause); `apiError` is any other exception from
the call. -/
inductive BatchOutcome where
  | ok (parsed : Json)
  | blockedOrEmpty
  | jsonError
  | apiError

/-- Verdict used for every slot when the batch AI response was blocked
or empty (main.py lines 530-537). -/
def batchFlaggedVerdict : Json :=
  mkVerdict false "Content Flagged"
    "Content flagged by safety systems."
    "Proceed with caution."
    "flagged_by_system" 80

/-- Verdict used for every slot on a batch JSON decode error
(main.py lines 544-551).  Note: safe is true and the category is
"error". -/
def batchParseErrorVerdict : Json :=
  mkVerdict true "Analysis Error"
    "Couldn\x27t analyze this content properly."
    "Use your judgment."
    "error" 50

/-- Verdict used for every slot on any other batch API error
(main.py lines 556-563). -/
def batchApiErrorVerdict : Json :=
  mkVerdict false "Safety Check Error"
    "Flagged as precaution due to processing error."
    "Proceed with caution."
    "error" 60

/-- Safe default verdict appended while the parsed batch result is
shorter than the input (main.py lines 516-523). -/
def batchSafeDefaultVerdict : Json :=
  mkVerdict true "Content is Safe"
    "No inappropriate content detected."
    "You can safely view this content."
    "safe" 70

/-- The wrap step of batch reconciliation: an array is used as is, any
non-array parsed value is wrapped into a one-element array
(main.py lines 508-512). -/
def wrapResults : Json → List Json
  | .arr xs => xs
  | j => [j]

/-- The padding while-loop of batch reconciliation: appends the safe
default verdict until the result list reaches length n
(main.py lines 515-523). -/
def padResults (results : List Json) (n : Nat) : List Json :=
  if _h : results.length < n then
    padResults (results ++ [batchSafeDefaultVerdict]) n
  else
    results
termination_by n - results.length
decreasing_by
  simp only [List.length_append, List.length_singleton]
  omega

/-- POST /analyze-batch.  `contents` is data.get("contents", []).  The
guard `not contents or not isinstance(contents, list)` rejects falsy or
non-list values with a 400 (in particular an empty list, which makes
the subsequent len(contents) == 0 branch unreachable); more than 50
items is rejected with a 400.  Otherwise the remote call's outcome is
reconciled to exactly len(contents) verdicts (main.py lines 450-568). -/
def analyze_batch (contents : Json) (o : BatchOutcome) :
    Except HTTPException (List Json) :=
  if !contents.truthy || !contents.isList then
    .error ⟨400, "Contents array is required"⟩
  else if contents.listLen = 0 then
    .ok []
  else if contents.listLen > 50 then
    .error ⟨400, "Maximum 50 contents per batch"⟩
  else
    match o with
    | .ok parsed =>
        .ok ((padResults (wrapResults parsed) contents.listLen).take contents.listLen)
    | .blockedOrEmpty => .ok (List.replicate contents.listLen batchFlaggedVerdict)
    | .jsonError => .ok (List.replicate contents.listLen batchParseErrorVerdict)
    | .apiError => .ok (List.replicate contents.listLen batchApiErrorVerdict)

/-! ## Flagged events store (main.py lines 193-371) -/

def MAX_FLAGGED_EVENTS : Nat := 250

/-- The local-storage cache update of POST /flagged-events
(main.py lines 364-369): append the serialized event, then if the cache
exceeds MAX_FLAGGED_EVENTS delete the first overflow entries
(del cache[0:overflow], i.e. the oldest are evicted).  Generic in the
element type: the Python list holds untyped dicts. -/
def create_flagged_event {α : Type} (cache : List α) (e : α) : List α :=
  let cache' := cache ++ [e]
  if cache'.length > MAX_FLAGGED_EVENTS then
    cache'.drop (cache'.length - MAX_FLAGGED_EVENTS)
  else
    cache'

/-- The fields of a serialized flagged event that the read path inspects.
detected_at holds the value of _parse_event_datetime on the stored
string (an ordered timestamp; datetime.min for unparseable strings);
eventId distinguishes distinct stored events. -/
structure StoredEvent where
  category : String
  user_id : Option String
  detected_at : Int
  eventId : Nat
deriving DecidableEq

/-- needle is a consecutive prefix of hay (over characters). -/
def charsHaveStart : List Char → List Char → Bool
  | [], _ => true
  | _ :: _, [] => false
  | a :: as, b :: bs => a == b && charsHaveStart as bs

/-- needle occurs as a consecutive substring of hay (over characters). -/
def charsContain (needle : List Char) : List Char → Bool
  | [] => needle.isEmpty
  | b :: bs => charsHaveStart needle (b :: bs) || charsContain needle bs

/-- Python's str.lower() over the characters of a string (per-character
ASCII lowering). -/
def pyLowerChars (s : String) : List Char :=
  s.data.map Char.toLower

/-- The category filter test of GET /flagged-events (main.py line 324):
`category_lower in (event.get("category") or "").lower()` — a
case-insensitive substring match. -/
def matchesCategory (category : String) (e : StoredEvent) : Bool :=
  charsContain (pyLowerChars category) (pyLowerChars e.category)

/-- Descending order on the parsed detected_at timestamps, the sort key
of the read path (sort key=_parse_event_datetime, reverse=True). -/
def byDetectedAtDesc (a b : StoredEvent) : Prop :=
  b.detected_at ≤ a.detected_at

instance : DecidableRel byDetectedAtDesc :=
  fun a b => inferInstanceAs (Decidable (b.detected_at ≤ a.detected_at))

/-- GET /flagged-events, local branch (main.py lines 315-335): clamp the
limit to [1, MAX_FLAGGED_EVENTS], filter by category (case-insensitive
substring, skipped when the parameter is absent or empty, i.e. falsy),
filter by user_id (equality), sort by detected_at descending, truncate
to the limit. -/
def get_flagged_events (cache : List StoredEvent) (limit : Nat)
    (category : Option String) (user_id : Option String) : List StoredEvent :=
  let limit := max 1 (min limit MAX_FLAGGED_EVENTS)
  let events := cache
  let events :=
    match category with
    | some c => if c = "" then events else events.filter (matchesCategory c)
    | none => events
  let events :=
    match user_id with
    | some u => if u = "" then events else events.filter (fun e => e.user_id == some u)
    | none => events
  let events := events.insertionSort byDetectedAtDesc
  events.take limit

/-! ## Activity logs (main.py lines 1097-1289) -/

def MAX_ACTIVITY_LOGS_PER_FAMILY : Nat := 500

/-- An activity log entry (main.py lines 1104-1114).  The source field
"type" is named log_type here because type is a Lean keyword. -/
structure ActivityLog where
  id : String
  timestamp : String
  userEmail : String
  familyId : String
  url : String
  log_type : String
  excerpt : String
  matchedKeywords : List String
  pageTitle : String
deriving DecidableEq

/-- POST /activity-logs (main.py lines 1117-1147) acting on the family's
partition of activity_logs_cache: append the log unconditionally, trim
to the last MAX_ACTIVITY_LOGS_PER_FAMILY entries
(cache[-MAX:] keeps the newest).  Returns the new partition and the
"count" value of the response (len of the partition). -/
def sync_activity_log (cache : List ActivityLog) (log : ActivityLog) :
    List ActivityLog × Nat :=
  let cache' := cache ++ [log]
  let cache'' :=
    if cache'.length > MAX_ACTIVITY_LOGS_PER_FAMILY then
      cache'.drop (cache'.length - MAX_ACTIVITY_LOGS_PER_FAMILY)
    else
      cache'
  (cache'', cache''.length)

/-- POST /activity-logs/batch (main.py lines 1249-1263) acting on the
family's partition: collect the ids already stored, keep only incoming
logs whose id is not among them (note: ids duplicated inside the same
batch are all kept, the filter only consults the pre-existing ids),
extend, trim to the last MAX_ACTIVITY_LOGS_PER_FAMILY entries.  Returns
(new partition, "added", "total") matching the response fields. -/
def sync_activity_logs_batch (cache : List ActivityLog)
    (logs : List ActivityLog) : List ActivityLog × Nat × Nat :=
  let existing_ids := cache.map (fun l => l.id)
  let new_logs := logs.filter (fun l => !existing_ids.contains l.id)
  let cache' := cache ++ new_logs
  let cache'' :=
    if cache'.length > MAX_ACTIVITY_LOGS_PER_FAMILY then
      cache'.drop (cache'.length - MAX_ACTIVITY_LOGS_PER_FAMILY)
    else
      cache'
  (cache'', new_logs.length, cache''.length)

/-! ## NSFW model (main.py lines 21-114 and 961-1080) -/

/-- A decoded RGB pixel grid (rows of pixels of channel values),
the np.array(img) fed to predict_nsfw. -/
def ImgArray : Type := List (List (List Nat))

/-- The metadata stored in the model bundle. -/
structure NsfwMetadata where
  img_height : Nat
  img_width : Nat
  classes : List String

/-- The loaded model bundle (NSFW_MODEL after a successful load).  The
keras model's inference on a preprocessed image, model.predict, is the
declared-out-of-scope classification capability; it is carried here as
the function predictProbs from the raw pixel grid to per-class
probabilities (the resize/normalize preprocessing of predict_nsfw is
folded into it). -/
structure NsfwModel where
  metadata : NsfwMetadata
  idx_to_class : Nat → String
  predictProbs : ImgArray → List Rat

/-- The process environment that load_nsfw_model consults:
whether NSFW_MODEL_PATH.exists(), whether the pickle-load/reconstruct
steps succeed without raising, and the bundle the artifact holds. -/
structure LoadEnv where
  pathExists : Bool
  loadOk : Bool
  bundle : NsfwModel

/-- load_nsfw_model (main.py lines 26-64) as a transition on the global
NSFW_MODEL.  Input: the current value of NSFW_MODEL; output: its new
value, paired with a flag that is true exactly when the body under
`if NSFW_MODEL is None` ran (i.e. a load was attempted).  When the
artifact is absent or loading raises, NSFW_MODEL is left as None — no
unavailability marker is written. -/
def load_nsfw_model (env : LoadEnv) (s : Option NsfwModel) :
    Option NsfwModel × Bool :=
  match s with
  | some m => (some m, false)
  | none =>
      if env.pathExists && env.loadOk then (some env.bundle, true)
      else (none, true)

/-- Index of the first maximum of a probability list (np.argmax). -/
def argmaxIdx (l : List Rat) : Nat :=
  (l.enum.foldl
    (fun best p => if p.2 > best.2 then p else best)
    (0, l.headD 0)).1

/-- The result dictionary built by predict_nsfw on a loaded model
(main.py lines 102-114).  The source key "class" is named predClass
because class is a Lean keyword. -/
structure NsfwPrediction where
  predClass : String
  confidence : Rat
  is_safe : Bool
  probabilities : List (String × Rat)
deriving Inhabited

/-- predict_nsfw (main.py lines 66-114) given the value of NSFW_MODEL
after load_nsfw_model ran: None when no model is loaded, otherwise the
argmax class, its probability, the safety flag (predicted class equal
to "safe") and the per-class probability mapping. -/
def predict_nsfw (s : Option NsfwModel) (img : ImgArray) :
    Option NsfwPrediction :=
  match s with
  | none => none
  | some m =>
      let probs := m.predictProbs img
      let predicted_idx := argmaxIdx probs
      let predicted_class := m.idx_to_class predicted_idx
      some
        { predClass := predicted_class
          confidence := probs.getD predicted_idx 0
          is_safe := predicted_class == "safe"
          probabilities :=
            (List.range probs.length).map
              (fun i => (m.idx_to_class i, probs.getD i 0)) }

/-- A Python whitespace character (the set str.strip removes). -/
def pyIsSpace (c : Char) : Bool :=
  c == ' ' || c == '\t' || c == '\n' || c == '\r' || c == '\x0b' || c == '\x0c'

/-- Python's str.strip() over the characters of a string: drop
whitespace from both ends. -/
def pyStripChars (s : String) : List Char :=
  ((s.data.dropWhile pyIsSpace).reverse.dropWhile pyIsSpace).reverse

/-- Outcome of obtaining the image inside analyze_image_nsfw:
successfully decoded pixels, an HTTP error while downloading, or any
other exception (bad base64, decode failure, ...). -/
inductive ImageFetch where
  | decoded (img : ImgArray)
  | httpError
  | otherError (msg : String)

/-- Verdict returned when the NSFW model is not loaded
(main.py lines 1023-1030). -/
def modelNotAvailableVerdict : Json :=
  mkVerdict true "Model Not Available"
    "NSFW detection model is not loaded."
    "Proceed with caution."
    "error" 0

/-- Verdict returned when the image download failed with an HTTP error
(main.py lines 1061-1068). -/
def imageNotAccessibleVerdict : Json :=
  mkVerdict true "Image Not Accessible"
    "Could not download the image for analysis."
    "Proceed with caution."
    "error" 0

/-- Verdict returned on any other exception during NSFW analysis
(main.py lines 1073-1080). -/
def nsfwAnalysisErrorVerdict (msg : String) : Json :=
  mkVerdict true "Analysis Error"
    ("Error analyzing image: " ++ msg)
    "Proceed with your own judgment."
    "error" 0

/-- One-decimal rendering of a rational, modelling the f-string
{confidence:.1f} in the NSFW reason texts. -/
def fmtOneDecimal (q : Rat) : String :=
  let tenths : Int := round (q * 10)
  toString (tenths / 10) ++ "." ++ toString ((tenths % 10).natAbs)

/-- Success verdict of analyze_image_nsfw for a safe classification
(main.py lines 1037-1046); confidence is the probability scaled to a
percentage and rounded. -/
def nsfwSafeVerdict (r : NsfwPrediction) (confidence : Rat) : Json :=
  Json.obj [("safe", Json.bool true),
    ("title", Json.str "Image Appears Safe"),
    ("reason", Json.str ("This image was classified as safe with " ++
      fmtOneDecimal confidence ++ "% confidence.")),
    ("what_to_do", Json.str "No action needed."),
    ("category", Json.str "safe"),
    ("confidence", Json.num (round confidence : Int)),
    ("class", Json.str r.predClass),
    ("probabilities", Json.obj (r.probabilities.map (fun p => (p.1, Json.num p.2))))]

/-- Success verdict of analyze_image_nsfw for an unsafe classification
(main.py lines 1048-1057). -/
def nsfwUnsafeVerdict (r : NsfwPrediction) (confidence : Rat) : Json :=
  Json.obj [("safe", Json.bool false),
    ("title", Json.str "Inappropriate Image Detected"),
    ("reason", Json.str ("This image has been flagged as potentially inappropriate with " ++
      fmtOneDecimal confidence ++ "% confidence.")),
    ("what_to_do", Json.str "Click to view if you\x27re certain you want to proceed."),
    ("category", Json.str "explicit_content"),
    ("confidence", Json.num (round confidence : Int)),
    ("class", Json.str r.predClass),
    ("probabilities", Json.obj (r.probabilities.map (fun p => (p.1, Json.num p.2))))]

/-- POST /analyze-image-nsfw (main.py lines 961-1080).  The Swagger
placeholder cleanup maps "" and "string" to None; if neither an
image_url nor an image_base64 remains the request is rejected with a
400.  Otherwise the image is obtained (outcome `fetch`) and classified
with the current NSFW model state `s`. -/
def analyze_image_nsfw (image_url image_base64 : Option String)
    (s : Option NsfwModel) (fetch : ImageFetch) : Except HTTPException Json :=
  let image_url :=
    match image_url with
    | some u =>
        if pyStripChars u = [] ∨ pyStripChars u = "string".data then none
        else some u
    | none => none
  let image_base64 :=
    match image_base64 with
    | some b =>
        if pyStripChars b = [] ∨ pyStripChars b = "string".data then none
        else some b
    | none => none
  if image_url = none ∧ image_base64 = none then
    .error ⟨400, "image_url or image_base64 is required"⟩
  else
    match fetch with
    | .httpError => .ok imageNotAccessibleVerdict
    | .otherError msg => .ok (nsfwAnalysisErrorVerdict msg)
    | .decoded img =>
        match predict_nsfw s img with
        | none => .ok modelNotAvailableVerdict
        | some r =>
            let confidence := r.confidence * 100
            if r.is_safe then .ok (nsfwSafeVerdict r confidence)
            else .ok (nsfwUnsafeVerdict r confidence)

/-! ## Spec-side predicate for the Verdict invariant (claim C5)

The following definition follows the words of the specification, not the
source: it states the invariant the spec asserts of every returned
verdict, for comparison with what the handlers actually return. -/

/-- The category keys recognized by the system: the taxonomy keys the
prompts enumerate plus the system categories of section 3 of the spec. -/
def recognizedCategories : List String :=
  ["profanity", "explicit_content", "scam", "disturbing", "safe",
   "violence", "hate_speech", "self_harm", "alcohol_drugs",
   "flagged_by_system", "system_blocked", "processing_error", "error"]

/-- The confidence field check of the spec invariant: an integer within
[0, 100]. -/
def confidenceInRange : Json → Bool
  | .num q => q.den == 1 && decide (0 ≤ q.num) && decide (q.num ≤ 100)
  | _ => false

/-- The spec's Verdict invariant, stated over a returned JSON value:
every required field present and well-typed, confidence an integer in
[0, 100], category a recognized key. -/
def isWellFormedVerdict (j : Json) : Bool :=
  (match j.getField "safe" with | some (Json.bool _) => true | _ => false) &&
  (match j.getField "title" with | some (Json.str _) => true | _ => false) &&
  (match j.getField "reason" with | some (Json.str _) => true | _ => false) &&
  (match j.getField "what_to_do" with | some (Json.str _) => true | _ => false) &&
  (match j.getField "category" with
    | some (Json.str c) => recognizedCategories.contains c
    | _ => false) &&
  (match j.getField "confidence" with
    | some v => confidenceInRange v
    | _ => false)

/-! ## Concrete sample values used by counterexamples and witnesses -/

/-- A well-formed JSON object a remote classifier could return: parses
fine, but the confidence is out of range and most required fields are
missing. -/
def badVerdictJson : Json :=
  Json.obj [("safe", Json.bool true), ("confidence", Json.num 150)]

/-- A stored flagged event with category "profanity". -/
def ev0 : StoredEvent :=
  { category := "profanity", user_id := none, detected_at := 0, eventId := 0 }

/-- A sample activity log entry. -/
def sampleLog : ActivityLog :=
  { id := "log-1", timestamp := "2025-01-01T00:00:00Z",
    userEmail := "kid@example.com", familyId := "fam-1",
    url := "https://example.com/page", log_type := "search",
    excerpt := "some text", matchedKeywords := ["keyword"], pageTitle := "Page" }

/-- A model bundle value for exercising the loader (its content is
irrelevant to the loader's control flow). -/
def emptyModel : NsfwModel :=
  { metadata := { img_height := 224, img_width := 224, classes := [] },
    idx_to_class := fun _ => "",
    predictProbs := fun _ => [] }

/-- The environment of a process whose model artifact is absent. -/
def envNoArtifact : LoadEnv :=
  { pathExists := false, loadOk := false, bundle := emptyModel }

/-! ## Helper lemmas -/

/-- The padding while-loop appends exactly enough safe defaults to reach
length n. -/
theorem padResults_eq (rs : List Json) (n : Nat) :
    padResults rs n = rs ++ List.replicate (n - rs.length) batchSafeDefaultVerdict := by
  generalize hk : n - rs.length = k
  induction k generalizing rs with
  | zero =>
      rw [padResults, dif_neg (by omega)]
      simp only [Nat.sub_eq_zero_of_le (by omega : n ≤ rs.length)] at hk ⊢
      simp
  | succ k ih =>
      have hlt : rs.length < n := by omega
      rw [padResults, dif_pos hlt]
      have hk' : n - (rs ++ [batchSafeDefaultVerdict]).length = k := by
        simp only [List.length_append, List.length_cons, List.length_nil]
        omega
      rw [ih _ hk']
      rw [List.append_assoc, List.singleton_append, ← List.replicate_succ]

/-- A single local flagged-event append leaves at most 250 stored
items. -/
theorem create_flagged_event_length_le {α : Type} (cache : List α) (e : α)
    (h : cache.length ≤ 250) : (create_flagged_event cache e).length ≤ 250 := by
  simp only [create_flagged_event, MAX_FLAGGED_EVENTS]
  split
  · simp only [List.length_drop]
    omega
  · simp only [List.length_append, List.length_cons, List.length_nil] at *
    omega

/-- Folding local flagged-event appends keeps exactly the newest 250
entries: the result is the suffix of cache ++ l past the overflow. -/
theorem foldl_create_flagged_event {α : Type} (l cache : List α)
    (h : cache.length ≤ 250) :
    l.foldl create_flagged_event cache =
      (cache ++ l).drop (cache.length + l.length - 250) := by
  induction l generalizing cache with
  | nil =>
      have h0 : cache.length - 250 = 0 := by omega
      simp [h0]
  | cons e es ih =>
      simp only [List.foldl_cons]
      rw [ih _ (create_flagged_event_length_le cache e h)]
      have h4 : cache ++ e :: es = (cache ++ [e]) ++ es := by
        rw [List.append_assoc, List.singleton_append]
      simp only [create_flagged_event, MAX_FLAGGED_EVENTS]
      split
      case isTrue hgt =>
          have h1 : (cache ++ [e]).length - 250 = 1 := by
            simp only [List.length_append, List.length_cons, List.length_nil] at hgt ⊢
            omega
          rw [h1]
          have h2 : ((cache ++ [e]).drop 1).length + es.length - 250 = es.length := by
            simp only [List.length_drop, List.length_append, List.length_cons,
              List.length_nil] at hgt ⊢
            omega
          rw [h2]
          have h3 : cache.length + (e :: es).length - 250 = 1 + es.length := by
            simp only [List.length_cons, List.length_append, List.length_nil] at hgt ⊢
            omega
          rw [h3]
          have h6 : ((cache ++ [e]) ++ es).drop 1 = (cache ++ [e]).drop 1 ++ es := by
            rw [List.drop_append_eq_append_drop]
            have h5 : 1 - (cache ++ [e]).length = 0 := by
              simp only [List.length_append, List.length_cons, List.length_nil]
              omega
            rw [h5, List.drop_zero]
          calc ((cache ++ [e]).drop 1 ++ es).drop es.length
              = (((cache ++ [e]) ++ es).drop 1).drop es.length := by rw [h6]
            _ = ((cache ++ [e]) ++ es).drop (1 + es.length) := List.drop_drop es.length 1 _
            _ = (cache ++ e :: es).drop (1 + es.length) := by rw [← h4]
      case isFalse hle =>
          rw [h4]
          congr 1
          simp only [List.length_append, List.length_cons, List.length_nil]
          omega

/-- Appending the events 1..260 to an empty local flagged-events cache
leaves exactly the events 11..260. -/
theorem create_flagged_event_range :
    (List.range' 1 260).foldl create_flagged_event ([] : List Nat) =
      List.range' 11 250 := by
  rw [foldl_create_flagged_event (List.range' 1 260) [] (by simp)]
  have hsplit : List.range' 1 260 = List.range' 1 10 ++ List.range' 11 250 := by
    have h := List.range'_append 1 10 250 1
    norm_num at h
    exact h.symm
  have hamount : ([] : List Nat).length + (List.range' 1 260).length - 250 =
      (List.range' 1 10).length := by
    simp [List.length_range']
  rw [List.nil_append, hamount, hsplit, List.drop_left]

/-- Once a nonempty batch of at most 50 items passes validation, the
result depends only on the remote outcome. -/
theorem analyze_batch_guards (xs : List Json) (o : BatchOutcome)
    (h1 : 1 ≤ xs.length) (h2 : xs.length ≤ 50) :
    analyze_batch (Json.arr xs) o =
      (match o with
       | .ok parsed =>
           .ok ((padResults (wrapResults parsed) xs.length).take xs.length)
       | .blockedOrEmpty => .ok (List.replicate xs.length batchFlaggedVerdict)
       | .jsonError => .ok (List.replicate xs.length batchParseErrorVerdict)
       | .apiError => .ok (List.replicate xs.length batchApiErrorVerdict)) := by
  obtain ⟨y, ys, rfl⟩ : ∃ y ys, xs = y :: ys := by
    cases xs with
    | nil => simp at h1
    | cons y ys => exact ⟨y, ys, rfl⟩
  have c3 : ¬((Json.arr (y :: ys)).listLen > 50) := by
    simp only [Json.listLen] at h2 ⊢
    omega
  unfold analyze_batch
  rw [if_neg (by simp [Json.truthy, Json.isList]),
    if_neg (by simp [Json.listLen]), if_neg c3]
  cases o <;> rfl

/-! ## Claim theorems -/

/-- C1: For every batch input of length N with 1 ≤ N ≤ 50, analyze_batch
with a successfully parsed remote result returns exactly N verdicts in
positional correspondence with the input: a non-array parsed value is
wrapped into a one-element array, a shorter array is padded at the tail
with the deterministic safe default verdict, and a longer array is
truncated to N. -/
theorem analyze_batch_reconciles (xs : List Json) (parsed : Json)
    (h1 : 1 ≤ xs.length) (h2 : xs.length ≤ 50) :
    analyze_batch (Json.arr xs) (BatchOutcome.ok parsed) =
      Except.ok ((wrapResults parsed).take xs.length ++
        List.replicate (xs.length - (wrapResults parsed).length)
          batchSafeDefaultVerdict) ∧
    ((wrapResults parsed).take xs.length ++
      List.replicate (xs.length - (wrapResults parsed).length)
        batchSafeDefaultVerdict).length = xs.length ∧
    ∀ j : Json, j.isList = false → wrapResults j = [j] := by
  refine ⟨?_, ?_, ?_⟩
  · rw [analyze_batch_guards xs (BatchOutcome.ok parsed) h1 h2]
    show Except.ok ((padResults (wrapResults parsed) xs.length).take xs.length) = _
    rw [padResults_eq, List.take_append_eq_append_take, List.take_replicate,
      Nat.min_self]
  · simp only [List.length_append, List.length_take, List.length_replicate]
    omega
  · intro j hj
    cases j <;> first | rfl | simp [Json.isList] at hj

/-- Witness for C1 at the one-element batch ["a"] with a single parsed
object: the object is wrapped and returned as the only verdict. -/
theorem analyze_batch_reconciles_witness :
    1 ≤ ([Json.str "a"] : List Json).length ∧
    ([Json.str "a"] : List Json).length ≤ 50 ∧
    analyze_batch (Json.arr [Json.str "a"]) (BatchOutcome.ok (Json.obj [])) =
      Except.ok [Json.obj []] :=
  ⟨by decide, by decide,
    (analyze_batch_reconciles [Json.str "a"] (Json.obj [])
      (by decide) (by decide)).1⟩

/-- C2: starting from any local flagged-events cache within capacity,
any sequence of appends leaves the cache within the 250-item capacity,
and appending the 260 events numbered 1..260 to an empty cache leaves
exactly the events 11..260 (the 10 oldest are evicted first). -/
theorem create_flagged_event_bounded (cache events : List Nat)
    (h : cache.length ≤ 250) :
    (events.foldl create_flagged_event cache).length ≤ 250 ∧
    (List.range' 1 260).foldl create_flagged_event ([] : List Nat) =
      List.range' 11 250 := by
  constructor
  · induction events generalizing cache with
    | nil => simpa using h
    | cons e es ih =>
        simp only [List.foldl_cons]
        exact ih _ (create_flagged_event_length_le cache e h)
  · exact create_flagged_event_range

/-- Witness for C2 from the empty cache. -/
theorem create_flagged_event_bounded_witness :
    ([] : List Nat).length ≤ 250 ∧
    ((List.range' 1 260).foldl create_flagged_event ([] : List Nat)).length ≤ 250 ∧
    (List.range' 1 260).foldl create_flagged_event ([] : List Nat) =
      List.range' 11 250 :=
  ⟨by decide,
    (create_flagged_event_bounded [] (List.range' 1 260) (by decide)).1,
    (create_flagged_event_bounded [] (List.range' 1 260) (by decide)).2⟩

/-- Counterexample to C3: a batch request whose remote response fails to
parse does NOT return fail-closed processing_error verdicts — the batch
JSON-decode-error default has safe = true and category "error". -/
theorem batch_parse_error_fail_open :
    analyze_batch (Json.arr [Json.str "hello"]) BatchOutcome.jsonError =
      Except.ok [batchParseErrorVerdict] ∧
    batchParseErrorVerdict.getField "safe" = some (Json.bool true) ∧
    batchParseErrorVerdict.getField "category" = some (Json.str "error") :=
  ⟨rfl, rfl, rfl⟩

/-- C3 (amended): an unparseable remote response yields, on the
single-item endpoint, the fail-closed verdict with safe = false and
category processing_error; on the batch endpoint it yields one verdict
per input with safe = true and category "error" (fail-open). -/
theorem parse_errors_fallback_verdicts (content : Json) (xs : List Json)
    (hc : content.truthy = true) (h1 : 1 ≤ xs.length) (h2 : xs.length ≤ 50) :
    analyze_content content RemoteOutcome.jsonError =
      Except.ok contentProcessingErrorVerdict ∧
    contentProcessingErrorVerdict.getField "safe" = some (Json.bool false) ∧
    contentProcessingErrorVerdict.getField "category" =
      some (Json.str "processing_error") ∧
    analyze_batch (Json.arr xs) BatchOutcome.jsonError =
      Except.ok (List.replicate xs.length batchParseErrorVerdict) ∧
    batchParseErrorVerdict.getField "safe" = some (Json.bool true) ∧
    batchParseErrorVerdict.getField "category" = some (Json.str "error") := by
  refine ⟨?_, rfl, rfl, ?_, rfl, rfl⟩
  · simp [analyze_content, hc]
  · rw [analyze_batch_guards xs BatchOutcome.jsonError h1 h2]

/-- Witness for the amended C3 at content "hi" and the one-element
batch ["a"]. -/
theorem parse_errors_fallback_verdicts_witness :
    (Json.str "hi").truthy = true ∧
    1 ≤ ([Json.str "a"] : List Json).length ∧
    ([Json.str "a"] : List Json).length ≤ 50 ∧
    (analyze_content (Json.str "hi") RemoteOutcome.jsonError =
        Except.ok contentProcessingErrorVerdict ∧
      contentProcessingErrorVerdict.getField "safe" = some (Json.bool false) ∧
      contentProcessingErrorVerdict.getField "category" =
        some (Json.str "processing_error") ∧
      analyze_batch (Json.arr [Json.str "a"]) BatchOutcome.jsonError =
        Except.ok (List.replicate ([Json.str "a"] : List Json).length
          batchParseErrorVerdict) ∧
      batchParseErrorVerdict.getField "safe" = some (Json.bool true) ∧
      batchParseErrorVerdict.getField "category" = some (Json.str "error")) :=
  ⟨rfl, by decide, by decide,
    parse_errors_fallback_verdicts (Json.str "hi") [Json.str "a"]
      rfl (by decide) (by decide)⟩

/-- C4: an empty contents list is rejected with HTTP 400 (the Python
guard `not contents` treats the empty list as falsy, so the
len(contents) == 0 branch that would return an empty results array is
unreachable), and a 51-item batch is rejected with HTTP 400; both
rejections are independent of the remote outcome, i.e. happen before
any remote call. -/
theorem analyze_batch_size_validation :
    (∀ o : BatchOutcome, analyze_batch (Json.arr []) o =
      Except.error ⟨400, "Contents array is required"⟩) ∧
    (∀ o : BatchOutcome,
      analyze_batch (Json.arr (List.replicate 51 (Json.str "x"))) o =
        Except.error ⟨400, "Maximum 50 contents per batch"⟩) :=
  ⟨fun _ => rfl, fun _ => rfl⟩

/-- Counterexample to C5: a remote response that parses as JSON is
returned verbatim by analyze_content with no field validation — here an
object with confidence 150 and missing required fields is passed
through, violating the claimed Verdict invariant. -/
theorem verdict_passthrough_counterexample :
    analyze_content (Json.str "hello") (RemoteOutcome.ok badVerdictJson) =
      Except.ok badVerdictJson ∧
    isWellFormedVerdict badVerdictJson = false :=
  ⟨rfl, rfl⟩

/-- C5 (amended): every fallback verdict the content-analysis endpoints
construct themselves satisfies the Verdict invariant (all fields
present and well-typed, confidence an integer in [0, 100], recognized
category), but a remote response that parses as JSON is returned
verbatim without validation. -/
theorem fallback_verdicts_wellformed (content parsed : Json)
    (hc : content.truthy = true) :
    analyze_content content (RemoteOutcome.ok parsed) = Except.ok parsed ∧
    isWellFormedVerdict contentFlaggedDefaultVerdict = true ∧
    isWellFormedVerdict contentSystemBlockedVerdict = true ∧
    isWellFormedVerdict contentProcessingErrorVerdict = true ∧
    isWellFormedVerdict contentErrorVerdict = true ∧
    isWellFormedVerdict batchFlaggedVerdict = true ∧
    isWellFormedVerdict batchParseErrorVerdict = true ∧
    isWellFormedVerdict batchApiErrorVerdict = true ∧
    isWellFormedVerdict batchSafeDefaultVerdict = true := by
  refine ⟨?_, rfl, rfl, rfl, rfl, rfl, rfl, rfl, rfl⟩
  simp [analyze_content, hc]

/-- Witness for the amended C5 at content "hi" with parsed value null. -/
theorem fallback_verdicts_wellformed_witness :
    (Json.str "hi").truthy = true ∧
    (analyze_content (Json.str "hi") (RemoteOutcome.ok Json.null) =
        Except.ok Json.null ∧
      isWellFormedVerdict contentFlaggedDefaultVerdict = true ∧
      isWellFormedVerdict contentSystemBlockedVerdict = true ∧
      isWellFormedVerdict contentProcessingErrorVerdict = true ∧
      isWellFormedVerdict contentErrorVerdict = true ∧
      isWellFormedVerdict batchFlaggedVerdict = true ∧
      isWellFormedVerdict batchParseErrorVerdict = true ∧
      isWellFormedVerdict batchApiErrorVerdict = true ∧
      isWellFormedVerdict batchSafeDefaultVerdict = true) :=
  ⟨rfl, fallback_verdicts_wellformed (Json.str "hi") Json.null rfl⟩

/-- C6: whenever the NSFW model is not loaded, analyze-image-nsfw
answers every decoded input image with the fail-open verdict — safe is
true, the category is "error" and the confidence is 0. -/
theorem nsfw_capability_fail_open (img : ImgArray) :
    analyze_image_nsfw (some "https://example.com/a.jpg") none none
        (ImageFetch.decoded img) =
      Except.ok modelNotAvailableVerdict ∧
    modelNotAvailableVerdict.getField "safe" = some (Json.bool true) ∧
    modelNotAvailableVerdict.getField "category" = some (Json.str "error") ∧
    modelNotAvailableVerdict.getField "confidence" = some (Json.num 0) :=
  ⟨rfl, rfl, rfl, rfl⟩

/-- Counterexample to C7: after a failed load attempt (artifact absent)
the model state is still None, so the next call runs the loader body
again — it does not short-circuit without attempting the load. -/
theorem nsfw_load_retries_counterexample :
    (load_nsfw_model envNoArtifact
      ((load_nsfw_model envNoArtifact none).1)).2 = true :=
  rfl

/-- C7 (amended): the capability loads at most once on success — once
NSFW_MODEL is set, calls return it without re-running the loader; but a
failed attempt leaves NSFW_MODEL as None, so the next call attempts the
load again (and fails again in the same environment). -/
theorem nsfw_load_cached_on_success (env : LoadEnv) (m : NsfwModel)
    (hfail : (env.pathExists && env.loadOk) = false) :
    load_nsfw_model env (some m) = (some m, false) ∧
    load_nsfw_model env ((load_nsfw_model env none).1) = (none, true) := by
  refine ⟨rfl, ?_⟩
  simp [load_nsfw_model, hfail]

/-- Witness for the amended C7 in the absent-artifact environment. -/
theorem nsfw_load_cached_on_success_witness :
    (envNoArtifact.pathExists && envNoArtifact.loadOk) = false ∧
    (load_nsfw_model envNoArtifact (some emptyModel) = (some emptyModel, false) ∧
      load_nsfw_model envNoArtifact
        ((load_nsfw_model envNoArtifact none).1) = (none, true)) :=
  ⟨rfl, nsfw_load_cached_on_success envNoArtifact emptyModel rfl⟩

/-- Counterexample to C8: two activity logs with the same id inside one
batch-sync call are both stored — from an empty partition the total
becomes 2, not 1, because de-duplication only consults the ids that
were already stored before the call. -/
theorem batch_dup_same_call_counterexample :
    sync_activity_logs_batch [] [sampleLog, sampleLog] =
      ([sampleLog, sampleLog], 2, 2) :=
  rfl

/-- C8 (amended): batch sync skips an incoming log whose id is already
stored in the family partition (the partition and its count are
unchanged and "added" is 0), so the same id submitted in two separate
batch calls is stored once; duplicates inside a single batch are not
de-duplicated against each other. -/
theorem batch_sync_dedup_across_calls (cache : List ActivityLog)
    (l : ActivityLog)
    (hmem : (cache.map (fun x => x.id)).contains l.id = true)
    (hlen : cache.length ≤ 500) :
    sync_activity_logs_batch cache [l] = (cache, 0, cache.length) ∧
    (sync_activity_logs_batch
      (sync_activity_logs_batch [] [sampleLog]).1 [sampleLog]).2.2 = 1 := by
  constructor
  · have hfilter :
        [l].filter (fun x => !(cache.map (fun y => y.id)).contains x.id) = [] := by
      simp only [List.filter_cons, List.filter_nil, hmem, Bool.not_true,
        Bool.false_eq_true, if_false]
    simp only [sync_activity_logs_batch, hfilter, List.append_nil,
      MAX_ACTIVITY_LOGS_PER_FAMILY]
    rw [if_neg (by omega)]
    simp
  · rfl

/-- Witness for the amended C8 with a one-entry partition already
holding the sample log's id. -/
theorem batch_sync_dedup_across_calls_witness :
    ([sampleLog].map (fun x => x.id)).contains sampleLog.id = true ∧
    [sampleLog].length ≤ 500 ∧
    (sync_activity_logs_batch [sampleLog] [sampleLog] =
        ([sampleLog], 0, [sampleLog].length) ∧
      (sync_activity_logs_batch
        (sync_activity_logs_batch [] [sampleLog]).1 [sampleLog]).2.2 = 1) :=
  ⟨by decide, by decide,
    batch_sync_dedup_across_calls [sampleLog] sampleLog (by decide) (by decide)⟩

/-- Counterexample to C9: the stored event with category "profanity" is
returned for the filter value "fan" although no stored event has
category equal to "fan" — the filter is a substring match, not an
equality match. -/
theorem category_filter_substring_counterexample :
    get_flagged_events [ev0] 25 (some "fan") none = [ev0] ∧
    [ev0].filter (fun e => e.category == "fan") = [] :=
  ⟨rfl, rfl⟩

/-- C9 (amended): with a category filter, the local flagged-events read
returns exactly the stored events whose category contains the filter
value as a case-insensitive substring; a filter matching no stored
event yields an empty sequence rather than an error. -/
theorem category_filter_semantics (cache : List StoredEvent) (c : String)
    (hc : ¬c = "") (hlen : cache.length ≤ 250) :
    (∀ e : StoredEvent, e ∈ get_flagged_events cache 250 (some c) none ↔
      e ∈ cache ∧ matchesCategory c e = true) ∧
    ((∀ e ∈ cache, matchesCategory c e = false) →
      get_flagged_events cache 250 (some c) none = []) := by
  have hstep : get_flagged_events cache 250 (some c) none =
      ((cache.filter (matchesCategory c)).insertionSort byDetectedAtDesc).take
        (max 1 (min 250 MAX_FLAGGED_EVENTS)) := by
    simp only [get_flagged_events]
    rw [if_neg hc]
  have hmax : max 1 (min 250 MAX_FLAGGED_EVENTS) = 250 := by
    simp [MAX_FLAGGED_EVENTS]
  have hsorted :
      ((cache.filter (matchesCategory c)).insertionSort byDetectedAtDesc).length
        ≤ 250 :=
    le_trans (by rw [List.length_insertionSort]
                 exact List.length_filter_le _ _) hlen
  have heq : get_flagged_events cache 250 (some c) none =
      (cache.filter (matchesCategory c)).insertionSort byDetectedAtDesc := by
    rw [hstep, hmax, List.take_of_length_le hsorted]
  constructor
  · intro e
    rw [heq, List.mem_insertionSort, List.mem_filter]
  · intro hnone
    rw [heq]
    have hfil : cache.filter (matchesCategory c) = [] := by
      rw [List.filter_eq_nil_iff]
      intro a ha
      rw [hnone a ha]
      simp
    rw [hfil]
    rfl

/-- Witness for the amended C9 on a one-event store and the filter
"fan". -/
theorem category_filter_semantics_witness :
    ¬("fan" : String) = "" ∧
    ([ev0] : List StoredEvent).length ≤ 250 ∧
    (ev0 ∈ get_flagged_events [ev0] 250 (some "fan") none ↔
      ev0 ∈ [ev0] ∧ matchesCategory "fan" ev0 = true) :=
  ⟨by decide, by decide,
    (category_filter_semantics [ev0] "fan" (by decide) (by decide)).1 ev0⟩

/-- C10: the single-log sync endpoint performs no de-duplication — a log
whose id is already present in the family partition is appended again,
the stored count rises by one, and submitting the same log twice from
an empty partition stores it twice. -/
theorem sync_activity_log_no_dedup (cache : List ActivityLog)
    (l : ActivityLog)
    (_hmem : (cache.map (fun x => x.id)).contains l.id = true)
    (hlen : cache.length < 500) :
    sync_activity_log cache l = (cache ++ [l], cache.length + 1) ∧
    (sync_activity_log (sync_activity_log [] l).1 l).1 = [l, l] := by
  constructor
  · simp only [sync_activity_log, MAX_ACTIVITY_LOGS_PER_FAMILY]
    rw [if_neg (by simp only [List.length_append, List.length_cons,
      List.length_nil]; omega)]
    simp
  · rfl

/-- Witness for C10 with a one-entry partition already holding the
sample log's id. -/
theorem sync_activity_log_no_dedup_witness :
    ([sampleLog].map (fun x => x.id)).contains sampleLog.id = true ∧
    [sampleLog].length < 500 ∧
    (sync_activity_log [sampleLog] sampleLog =
        ([sampleLog] ++ [sampleLog], [sampleLog].length + 1) ∧
      (sync_activity_log (sync_activity_log [] sampleLog).1 sampleLog).1 =
        [sampleLog, sampleLog]) :=
  ⟨by decide, by decide,
    sync_activity_log_no_dedup [sampleLog] sampleLog (by decide) (by decide)⟩

end Sentry
